import Mathlib

/-!
Shallow embedding of the weatherApi repository's core pipeline
(src/services/WeatherService.ts, src/models/WeatherModels.ts,
src/entities/WeatherLog.ts) and proofs about it.

Conventions of the embedding:
  - JavaScript `number` fields are modelled as `Rat` (the code performs no
    arithmetic on them, only pass-through), `Date` values as `Nat`
    (milliseconds since the epoch).
  - A thrown JavaScript `Error` is a `JsError` value carrying the runtime
    class name (`name`, always "Error" for `new Error(msg)`) and `message`.
  - The axios outcome of the single upstream GET, and the outcome of the
    repository save, are inputs to `WeatherService.getWeather`, which is a
    pure function returning the thrown-or-returned value, the new store
    world and whether the upstream request was issued.
  - The two TypeORM data sources (the global `AppDataSource` and a possibly
    injected test source) are a `World` of two `Store`s addressed by `DSRef`.
-/

/-- Models JavaScript `String.prototype.trim`: drop leading and trailing
whitespace characters. -/
def jsTrim (s : String) : String :=
  ⟨((s.data.dropWhile Char.isWhitespace).reverse.dropWhile Char.isWhitespace).reverse⟩

/-- A thrown JavaScript `Error`: its runtime class name and its message.
Every `throw new Error(msg)` in WeatherService.ts produces
`name = "Error"`. -/
structure JsError where
  name : String
  message : String
deriving DecidableEq, Repr

/-- `new Error(msg)` — the only error constructor WeatherService.ts uses. -/
def jsError (msg : String) : JsError :=
  { name := "Error", message := msg }

/-- Models `a || b` on a possibly-absent string (`error.response.data?.message
|| error.response.statusText`, WeatherService.ts line 105): the empty string
and an absent value are falsy. -/
def jsOrElse (a : Option String) (b : String) : String :=
  match a with
  | some s => if s = "" then b else s
  | none => b

/-- Models `result.affected || 0` (WeatherService.ts line 166): absent or
null `affected` becomes 0. -/
def jsOrZero (a : Option Nat) : Nat :=
  match a with
  | some n => n
  | none => 0

/-- `coord` of the upstream response (WeatherModels.ts lines 150-153). -/
structure OWCoord where
  lon : Rat
  lat : Rat
deriving DecidableEq, Repr

/-- One entry of the `weather` array of the upstream response
(WeatherModels.ts lines 154-159). -/
structure OWWeatherItem where
  id : Rat
  main : String
  description : String
  icon : String
deriving DecidableEq, Repr

/-- `main` of the upstream response (WeatherModels.ts lines 161-168). -/
structure OWMain where
  temp : Rat
  feels_like : Rat
  temp_min : Rat
  temp_max : Rat
  pressure : Rat
  humidity : Rat
deriving DecidableEq, Repr

/-- `wind` of the upstream response (WeatherModels.ts lines 170-173). -/
structure OWWind where
  speed : Rat
  deg : Rat
deriving DecidableEq, Repr

/-- `clouds` of the upstream response (WeatherModels.ts lines 174-176). -/
structure OWClouds where
  all : Rat
deriving DecidableEq, Repr

/-- `sys` of the upstream response (WeatherModels.ts lines 178-184). -/
structure OWSys where
  type : Rat
  id : Rat
  country : String
  sunrise : Rat
  sunset : Rat
deriving DecidableEq, Repr

/-- The upstream provider's JSON shape, `OpenWeatherApiResponse`
(WeatherModels.ts lines 149-189). -/
structure OpenWeatherApiResponse where
  coord : OWCoord
  weather : List OWWeatherItem
  base : String
  main : OWMain
  visibility : Rat
  wind : OWWind
  clouds : OWClouds
  dt : Rat
  sys : OWSys
  timezone : Rat
  id : Rat
  name : String
  cod : Rat
deriving DecidableEq, Repr

/-- `WeatherDTO` (WeatherModels.ts lines 6-45): the normalized Weather
Record. `id` is absent before persistence; `humidity`, `windSpeed`,
`windDirection` and `pressure` are optional. The stored `conditions`
alias always equals `description` (constructor line 38) and is exposed
below as `WeatherDTO.conditions`. -/
structure WeatherDTO where
  id : Option Nat
  city : String
  temperature : Rat
  description : String
  humidity : Option Rat
  windSpeed : Option Rat
  windDirection : Option Rat
  pressure : Option Rat
  timestamp : Nat
deriving DecidableEq, Repr

/-- The `conditions` alias the DTO constructor sets from `description`
(WeatherModels.ts line 38). -/
def WeatherDTO.conditions (w : WeatherDTO) : String :=
  w.description

/-- `WeatherDTO.isComplete` (WeatherModels.ts lines 75-80):
`!!(city && temperature !== undefined && description && timestamp)`.
In the embedding `temperature : Rat` is never `undefined` and a `Date`
object is always truthy, so those two conjuncts are constantly true and
the check reduces to the truthiness of the two strings. -/
def WeatherDTO.isComplete (w : WeatherDTO) : Bool :=
  w.city != "" && w.description != ""

/-- The `WeatherLog` entity (WeatherLog.ts lines 4-31): `id` is
store-assigned, the four optional columns are nullable. -/
structure WeatherLog where
  id : Nat
  city : String
  temperature : Rat
  description : String
  humidity : Option Rat
  windSpeed : Option Rat
  windDirection : Option Rat
  pressure : Option Rat
  timestamp : Nat
deriving DecidableEq, Repr

/-- One TypeORM repository backing store: the auto-increment counter and
the persisted rows. -/
structure Store where
  nextId : Nat
  rows : List WeatherLog
deriving DecidableEq, Repr

/-- Descending-timestamp order used by `order: { timestamp: 'DESC' }`
(WeatherService.ts line 141). -/
def tsDesc (a b : WeatherLog) : Prop :=
  b.timestamp ≤ a.timestamp

instance : DecidableRel tsDesc :=
  fun a b => inferInstanceAs (Decidable (b.timestamp ≤ a.timestamp))

instance : IsTotal WeatherLog tsDesc :=
  ⟨fun a b => Or.symm (Nat.le_total a.timestamp b.timestamp)⟩

instance : IsTrans WeatherLog tsDesc :=
  ⟨fun _ _ _ hab hbc => Nat.le_trans hbc hab⟩

/-- `repository.find({ where: { city }, order: { timestamp: 'DESC' },
take: limit })` (WeatherService.ts lines 139-143): exact city match,
timestamp-descending order, at most `limit` rows. -/
def Store.findByCity (s : Store) (city : String) (limit : Nat) : List WeatherLog :=
  (List.insertionSort tsDesc (s.rows.filter fun r => r.city == city)).take limit

/-- `repository.delete({ city })` (WeatherService.ts line 164): removes the
exact city matches; `affected` is the number of removed rows. -/
def Store.deleteByCity (s : Store) (city : String) : Option Nat × Store :=
  (some (s.rows.filter fun r => r.city == city).length,
   { s with rows := s.rows.filter fun r => r.city != city })

/-- Which TypeORM data source a repository call goes through: the global
`AppDataSource` or an injected test source. -/
inductive DSRef where
  | app
  | test
deriving DecidableEq, Repr

/-- The states of the two data sources' backing stores. -/
structure World where
  appStore : Store
  testStore : Store
deriving DecidableEq, Repr

def World.get (w : World) : DSRef → Store
  | DSRef.app => w.appStore
  | DSRef.test => w.testStore

def World.set (w : World) : DSRef → Store → World
  | DSRef.app, s => { w with appStore := s }
  | DSRef.test, s => { w with testStore := s }

/-- The service's only mutable static: `private static dataSource`
(WeatherService.ts line 11). -/
structure ServiceState where
  dataSource : DSRef
deriving DecidableEq, Repr

/-- The initial value of the static: `dataSource = AppDataSource`
(WeatherService.ts line 11). -/
def WeatherService.initialState : ServiceState :=
  { dataSource := DSRef.app }

/-- `WeatherService.setDataSource` (WeatherService.ts lines 21-23). -/
def WeatherService.setDataSource (_svc : ServiceState) (d : DSRef) : ServiceState :=
  { dataSource := d }

/-- `WeatherService.getDataSource` (WeatherService.ts lines 28-30). -/
def WeatherService.getDataSource (svc : ServiceState) : DSRef :=
  svc.dataSource

/-- `WeatherService.saveWeatherLog` (WeatherService.ts lines 116-132):
`repository.create` is given only `city`, `temperature`, `description`,
`humidity`, `windSpeed` and `timestamp` (lines 120-127) — `windDirection`
and `pressure` are not copied — and `repository.save` assigns the next id.
The repository comes from `this.dataSource` (line 119). -/
def WeatherService.saveWeatherLog (svc : ServiceState) (w : World)
    (weather : WeatherDTO) : World :=
  let store := w.get svc.dataSource
  let log : WeatherLog :=
    { id := store.nextId
      city := weather.city
      temperature := weather.temperature
      description := weather.description
      humidity := weather.humidity
      windSpeed := weather.windSpeed
      windDirection := none
      pressure := none
      timestamp := weather.timestamp }
  w.set svc.dataSource { nextId := store.nextId + 1, rows := store.rows ++ [log] }

/-- The outcome of the single axios GET issued by `getWeather`:
a 2xx body, a non-2xx response (`error.response` present, with its status,
optional `data.message` and `statusText`), a network failure
(`error.request` present, no response), or a failure in setting up the
request (neither present). -/
inductive UpstreamOutcome where
  | ok (resp : OpenWeatherApiResponse)
  | httpError (status : Nat) (dataMessage : Option String) (statusText : String)
  | networkError
  | setupError (message : String)
deriving DecidableEq, Repr

/-- The message of the TypeError JavaScript raises when `data.weather` is
empty and `data.weather[0].description` is read (WeatherService.ts line 66). -/
def typeErrorEmptyWeather : String :=
  "Cannot read properties of undefined (reading 'description')"

/-- The validation message (WeatherService.ts line 34). -/
def msgValidationRequired : String :=
  "City name is required"

/-- The missing-credential message (WeatherService.ts line 41). -/
def msgConfigMissing : String :=
  "OpenWeather API key is not configured. Please set OPENWEATHER_API_KEY environment variable."

/-- The 404 message (WeatherService.ts line 101). -/
def msgNotFound (city : String) : String :=
  "City '" ++ city ++ "' not found. Please check the city name and try again."

/-- The 401 message (WeatherService.ts line 103). -/
def msgAuth : String :=
  "Invalid API key. Please check your OpenWeather API key configuration."

/-- The other-status message (WeatherService.ts line 105). -/
def msgApiError (detail : String) : String :=
  "Weather API error: " ++ detail

/-- The no-response message (WeatherService.ts line 108). -/
def msgUnreachable : String :=
  "Unable to reach weather service. Please check your internet connection."

/-- The request-setup / fallback message (WeatherService.ts line 111). -/
def msgServiceError (detail : String) : String :=
  "Weather service error: " ++ detail

/-- The DTO `getWeather` builds from the upstream body (WeatherService.ts
lines 70-77): `name → city`, `main.temp → temperature`,
`weather[0].description → description`, `main.humidity → humidity`,
`wind.speed → windSpeed`, `timestamp := new Date()`; no id,
no `windDirection`, no `pressure`. `entry` is `data.weather[0]`. -/
def WeatherService.buildDTO (data : OpenWeatherApiResponse)
    (entry : OWWeatherItem) (now : Nat) : WeatherDTO :=
  { id := none
    city := data.name
    temperature := data.main.temp
    description := entry.description
    humidity := some data.main.humidity
    windSpeed := some data.wind.speed
    windDirection := none
    pressure := none
    timestamp := now }

/-- What one `getWeather` call produces: the returned DTO or the thrown
error, the store world afterwards, and whether the upstream HTTP request
was issued. -/
structure GetWeatherResult where
  result : Except JsError WeatherDTO
  world : World
  gatewayCalled : Bool
deriving Repr

/-- `WeatherService.getWeather` (WeatherService.ts lines 32-114).
The guard `!city || city.trim().length === 0` (line 33) is equivalent to
`jsTrim city = ""`. The API-key check (lines 40-44) runs after it, still
before the axios call. Inside the try block: a 2xx body with an empty
`weather` array makes `data.weather[0].description` throw a TypeError that
the catch block re-wraps through its final else branch (line 111); a save
failure (a plain storage error, with neither `response` nor `request`)
takes the same branch; the catch block otherwise maps 404, 401, other
statuses, and the no-response case (lines 100-112). -/
def WeatherService.getWeather (city : String) (apiKey : Option String)
    (upstream : UpstreamOutcome) (saveFail : Option String) (now : Nat)
    (svc : ServiceState) (w : World) : GetWeatherResult :=
  if jsTrim city = "" then
    { result := Except.error (jsError msgValidationRequired)
      world := w, gatewayCalled := false }
  else
    match apiKey with
    | none =>
        { result := Except.error (jsError msgConfigMissing)
          world := w, gatewayCalled := false }
    | some _ =>
        match upstream with
        | UpstreamOutcome.ok data =>
            match data.weather with
            | [] =>
                { result := Except.error (jsError (msgServiceError typeErrorEmptyWeather))
                  world := w, gatewayCalled := true }
            | entry :: _ =>
                let weather := WeatherService.buildDTO data entry now
                match saveFail with
                | some m =>
                    { result := Except.error (jsError (msgServiceError m))
                      world := w, gatewayCalled := true }
                | none =>
                    { result := Except.ok weather
                      world := WeatherService.saveWeatherLog svc w weather
                      gatewayCalled := true }
        | UpstreamOutcome.httpError status dataMsg statusText =>
            if status = 404 then
              { result := Except.error (jsError (msgNotFound city))
                world := w, gatewayCalled := true }
            else if status = 401 then
              { result := Except.error (jsError msgAuth)
                world := w, gatewayCalled := true }
            else
              { result := Except.error (jsError (msgApiError (jsOrElse dataMsg statusText)))
                world := w, gatewayCalled := true }
        | UpstreamOutcome.networkError =>
            { result := Except.error (jsError msgUnreachable)
              world := w, gatewayCalled := true }
        | UpstreamOutcome.setupError m =>
            { result := Except.error (jsError (msgServiceError m))
              world := w, gatewayCalled := true }

/-- The DTO `getWeatherHistory` builds from a stored row (WeatherService.ts
lines 148-156): `id`, `city`, `temperature`, `description`, `humidity`,
`windSpeed`, `timestamp` only — `windDirection` and `pressure` are not
mapped back. -/
def WeatherLog.toHistoryDTO (log : WeatherLog) : WeatherDTO :=
  { id := some log.id
    city := log.city
    temperature := log.temperature
    description := log.description
    humidity := log.humidity
    windSpeed := log.windSpeed
    windDirection := none
    pressure := none
    timestamp := log.timestamp }

/-- `WeatherService.getWeatherHistory` (WeatherService.ts lines 134-157):
reads through `this.dataSource` (line 138); `limit` defaults to 10
(line 134). -/
def WeatherService.getWeatherHistory (svc : ServiceState) (w : World)
    (city : String) (limit : Nat := 10) : List WeatherDTO :=
  ((w.get svc.dataSource).findByCity city limit).map WeatherLog.toHistoryDTO

/-- `WeatherService.deleteWeatherHistory` (WeatherService.ts lines 159-171):
the repository comes from the global `AppDataSource` (line 163), not from
`this.dataSource`; the returned count is `result.affected || 0` (line 166). -/
def WeatherService.deleteWeatherHistory (_svc : ServiceState) (city : String)
    (w : World) : Nat × World :=
  let r := (w.get DSRef.app).deleteByCity city
  (jsOrZero r.1, w.set DSRef.app r.2)

/-- `ApiResponse` (WeatherModels.ts lines 102-144): the Response Envelope.
The constructor stores the `success` flag, the message, the possibly absent
`data` and `error`, and the call-time ISO string. -/
structure ApiResponse (T : Type) where
  success : Bool
  message : String
  data : Option T
  error : Option String
  timestamp : String
deriving DecidableEq, Repr

/-- The `ApiResponse` constructor (WeatherModels.ts lines 109-127);
`nowIso` is `new Date().toISOString()` at construction time. -/
def ApiResponse.make (T : Type) (success : Bool) (message : String)
    (data : Option T) (error : Option String) (nowIso : String) : ApiResponse T :=
  { success := success, message := message, data := data, error := error
    timestamp := nowIso }

/-- The static success factory (WeatherModels.ts lines 132-135):
`new ApiResponse(true, message, data)`. -/
def ApiResponse.mkSuccess (T : Type) (data : T) (nowIso : String)
    (message : String := "Operation successful") : ApiResponse T :=
  ApiResponse.make T true message (some data) none nowIso

/-- The static error factory (WeatherModels.ts lines 140-143):
`new ApiResponse(false, message, undefined, error)`. -/
def ApiResponse.mkError (T : Type) (message : String) (error : Option String)
    (nowIso : String) : ApiResponse T :=
  ApiResponse.make T false message none error nowIso

/-! Sample inputs used by the concrete witnesses. -/

/-- A well-formed upstream weather entry. -/
def sampleEntry : OWWeatherItem :=
  { id := 800, main := "Clear", description := "clear sky", icon := "01d" }

/-- A well-formed upstream response for Paris. -/
def sampleResp : OpenWeatherApiResponse :=
  { coord := { lon := 2, lat := 48 }
    weather := [sampleEntry]
    base := "stations"
    main := { temp := 25, feels_like := 25, temp_min := 20, temp_max := 30,
              pressure := 1013, humidity := 60 }
    visibility := 10000
    wind := { speed := 5, deg := 90 }
    clouds := { all := 0 }
    dt := 1700000000
    sys := { type := 1, id := 1, country := "FR", sunrise := 0, sunset := 0 }
    timezone := 3600
    id := 2988507
    name := "Paris"
    cod := 200 }

/-- The DTO `getWeather` builds from `sampleResp` at time 0. -/
def sampleDTO : WeatherDTO :=
  { id := none, city := "Paris", temperature := 25, description := "clear sky",
    humidity := some 60, windSpeed := some 5, windDirection := none,
    pressure := none, timestamp := 0 }

/-- Two empty stores. -/
def world0 : World :=
  { appStore := { nextId := 1, rows := [] }, testStore := { nextId := 1, rows := [] } }

/-- An upstream response whose `weather[0].description` is the empty
string; the service maps it without validating it. -/
def degenerateResp : OpenWeatherApiResponse :=
  { sampleResp with weather := [{ id := 800, main := "Clear", description := "", icon := "01d" }] }

/-- The incomplete record `getWeather` returns for `degenerateResp`. -/
def incompleteDTO : WeatherDTO :=
  { id := none, city := "Paris", temperature := 25, description := "",
    humidity := some 60, windSpeed := some 5, windDirection := none,
    pressure := none, timestamp := 0 }

/-- A world whose global store holds five records for Paris. -/
def fiveParisWorld : World :=
  { appStore :=
      { nextId := 6
        rows := [
          { id := 1, city := "Paris", temperature := 20, description := "cloudy",
            humidity := none, windSpeed := none, windDirection := none, pressure := none, timestamp := 10 },
          { id := 2, city := "Paris", temperature := 21, description := "sunny",
            humidity := none, windSpeed := none, windDirection := none, pressure := none, timestamp := 20 },
          { id := 3, city := "Paris", temperature := 22, description := "rain",
            humidity := none, windSpeed := none, windDirection := none, pressure := none, timestamp := 30 },
          { id := 4, city := "Paris", temperature := 23, description := "mist",
            humidity := none, windSpeed := none, windDirection := none, pressure := none, timestamp := 40 },
          { id := 5, city := "Paris", temperature := 24, description := "clear sky",
            humidity := none, windSpeed := none, windDirection := none, pressure := none, timestamp := 50 }] }
    testStore := { nextId := 1, rows := [] } }

/-- The runtime class name of the error a `getWeather` outcome carries,
when it carries one. -/
def exceptErrName : Except JsError WeatherDTO → Option String
  | Except.error e => some e.name
  | Except.ok _ => none

/-- The first character of a string, used to tell literals apart. -/
def strHead (s : String) : Option Char :=
  s.data.head?

/-! Helper lemmas. -/

theorem World.get_set_self (w : World) (d : DSRef) (s : Store) : (w.set d s).get d = s := by
  cases d <;> rfl

theorem strHead_ne {a b : String} (h : strHead a ≠ strHead b) : a ≠ b :=
  fun e => h (congrArg strHead e)

theorem mem_history_after_save (svc : ServiceState) (w : World) (dto : WeatherDTO)
    (limit : Nat) (hwd : dto.windDirection = none) (hp : dto.pressure = none)
    (hlen : ((w.get svc.dataSource).rows.filter fun r => r.city == dto.city).length < limit) :
    { dto with id := some (w.get svc.dataSource).nextId } ∈
      WeatherService.getWeatherHistory svc (WeatherService.saveWeatherLog svc w dto)
        dto.city limit := by
  unfold WeatherService.getWeatherHistory WeatherService.saveWeatherLog Store.findByCity
  rw [World.get_set_self]
  set store := w.get svc.dataSource with hstore
  set log : WeatherLog :=
    { id := store.nextId, city := dto.city, temperature := dto.temperature,
      description := dto.description, humidity := dto.humidity,
      windSpeed := dto.windSpeed, windDirection := none, pressure := none,
      timestamp := dto.timestamp } with hlog
  have hfil : (store.rows ++ [log]).filter (fun r => r.city == dto.city)
      = store.rows.filter (fun r => r.city == dto.city) ++ [log] := by
    rw [List.filter_append]
    simp [hlog]
  have hlenf : ((store.rows ++ [log]).filter (fun r => r.city == dto.city)).length ≤ limit := by
    rw [hfil, List.length_append]
    simpa using hlen
  have hsortlen : (List.insertionSort tsDesc
      ((store.rows ++ [log]).filter (fun r => r.city == dto.city))).length ≤ limit := by
    rw [List.length_insertionSort]; exact hlenf
  rw [List.take_of_length_le hsortlen]
  refine List.mem_map.mpr ⟨log, ?_, ?_⟩
  · rw [List.mem_insertionSort, hfil]
    exact List.mem_append.mpr (Or.inr (List.mem_singleton.mpr rfl))
  · cases dto
    simp_all [WeatherLog.toHistoryDTO]

/-! Claim theorems. -/

/-- C4: for every city string that is empty or trims to empty, `getWeather`
fails with the Error "City name is required", the upstream Gateway is never
contacted, and the stores are untouched — regardless of the API-key
configuration and of every other input (so no credential-check outcome is
surfaced instead). -/
theorem getWeather_validation (city : String) (apiKey : Option String)
    (upstream : UpstreamOutcome) (saveFail : Option String) (now : Nat)
    (svc : ServiceState) (w : World) (h : jsTrim city = "") :
    (WeatherService.getWeather city apiKey upstream saveFail now svc w).result
        = Except.error (jsError msgValidationRequired) ∧
    (WeatherService.getWeather city apiKey upstream saveFail now svc w).gatewayCalled = false ∧
    (WeatherService.getWeather city apiKey upstream saveFail now svc w).world = w := by
  simp [WeatherService.getWeather, h]

/-- C4 witness: the validation theorem at the whitespace city "   ". -/
theorem getWeather_validation_witness :
    (WeatherService.getWeather "   " none UpstreamOutcome.networkError none 0
        WeatherService.initialState world0).result
        = Except.error (jsError msgValidationRequired) ∧
    (WeatherService.getWeather "   " none UpstreamOutcome.networkError none 0
        WeatherService.initialState world0).gatewayCalled = false ∧
    (WeatherService.getWeather "   " none UpstreamOutcome.networkError none 0
        WeatherService.initialState world0).world = world0 :=
  getWeather_validation "   " none UpstreamOutcome.networkError none 0
    WeatherService.initialState world0 (by decide)

/-- C1: round-trip through the save path of `getWeather`. Whenever
`getWeather` succeeds and returns a record `dto`, `dto.id` is not yet
populated, and reading the history of `dto.city` from the resulting store
state (with a limit large enough to escape truncation) yields a record
that agrees with `dto` field for field — city, temperature, description,
humidity, windSpeed, windDirection, pressure, timestamp — with `id` now
populated with the store-assigned key. -/
theorem getWeather_roundTrip (city apiKeyVal : String) (data : OpenWeatherApiResponse)
    (entry : OWWeatherItem) (rest : List OWWeatherItem) (now : Nat)
    (svc : ServiceState) (w : World) (limit : Nat) (dto : WeatherDTO)
    (hw : data.weather = entry :: rest)
    (hok : (WeatherService.getWeather city (some apiKeyVal) (UpstreamOutcome.ok data)
        none now svc w).result = Except.ok dto)
    (hlen : ((w.get svc.dataSource).rows.filter fun r => r.city == dto.city).length < limit) :
    dto.id = none ∧
    { dto with id := some (w.get svc.dataSource).nextId } ∈
      WeatherService.getWeatherHistory svc
        ((WeatherService.getWeather city (some apiKeyVal) (UpstreamOutcome.ok data)
            none now svc w).world)
        dto.city limit := by
  by_cases hc : jsTrim city = ""
  · simp [WeatherService.getWeather, hc] at hok
  · have hdto : dto = WeatherService.buildDTO data entry now := by
      simp [WeatherService.getWeather, hc, hw] at hok
      exact hok.symm
    have hworld : (WeatherService.getWeather city (some apiKeyVal) (UpstreamOutcome.ok data)
        none now svc w).world = WeatherService.saveWeatherLog svc w dto := by
      simp [WeatherService.getWeather, hc, hw, hdto]
    rw [hworld]
    subst hdto
    exact ⟨rfl, mem_history_after_save svc w _ limit rfl rfl hlen⟩

/-- C1 witness: the round-trip theorem at a concrete Paris response over
empty stores. -/
theorem getWeather_roundTrip_witness :
    sampleDTO.id = none ∧
    { sampleDTO with id := some (world0.get WeatherService.initialState.dataSource).nextId } ∈
      WeatherService.getWeatherHistory WeatherService.initialState
        ((WeatherService.getWeather "Paris" (some "k") (UpstreamOutcome.ok sampleResp)
            none 0 WeatherService.initialState world0).world)
        sampleDTO.city 10 :=
  getWeather_roundTrip "Paris" "k" sampleResp sampleEntry [] 0
    WeatherService.initialState world0 10 sampleDTO rfl rfl (by decide)

/-- C2 (amended): an upstream 404 fails with the Error whose message is
`msgNotFound city`, which contains the queried city name; a 401 fails with
the invalid-credential message; a network failure with no response fails
with the unreachable message. The three failures all carry the SAME error
kind — every one is a plain `Error` (`jsError`, runtime class name
"Error") — and are distinguishable only by their pairwise distinct
message texts, not by error type. -/
theorem getWeather_errorTaxonomy (city apiKeyVal : String) (dataMsg : Option String)
    (statusText : String) (saveFail : Option String) (now : Nat)
    (svc : ServiceState) (w : World) (h : jsTrim city ≠ "") :
    (WeatherService.getWeather city (some apiKeyVal)
        (UpstreamOutcome.httpError 404 dataMsg statusText) saveFail now svc w).result
        = Except.error (jsError (msgNotFound city)) ∧
    (∃ a b, msgNotFound city = a ++ city ++ b) ∧
    (WeatherService.getWeather city (some apiKeyVal)
        (UpstreamOutcome.httpError 401 dataMsg statusText) saveFail now svc w).result
        = Except.error (jsError msgAuth) ∧
    (WeatherService.getWeather city (some apiKeyVal)
        UpstreamOutcome.networkError saveFail now svc w).result
        = Except.error (jsError msgUnreachable) ∧
    (jsError (msgNotFound city)).name = (jsError msgAuth).name ∧
    (jsError msgAuth).name = (jsError msgUnreachable).name ∧
    msgNotFound city ≠ msgAuth ∧
    msgNotFound city ≠ msgUnreachable ∧
    msgAuth ≠ msgUnreachable := by
  refine ⟨?_, ?_, ?_, ?_, rfl, rfl, ?_, ?_, ?_⟩
  · simp [WeatherService.getWeather, h]
  · exact ⟨"City '", "' not found. Please check the city name and try again.", rfl⟩
  · simp [WeatherService.getWeather, h]
  · simp [WeatherService.getWeather, h]
  · exact strHead_ne fun e => absurd (show (some 'C' : Option Char) = some 'I' from e) (by decide)
  · exact strHead_ne fun e => absurd (show (some 'C' : Option Char) = some 'U' from e) (by decide)
  · exact strHead_ne fun e => absurd (show (some 'I' : Option Char) = some 'U' from e) (by decide)

/-- C2 witness: the amended error-taxonomy theorem at the city Paris. -/
theorem getWeather_errorTaxonomy_witness :
    (WeatherService.getWeather "Paris" (some "k")
        (UpstreamOutcome.httpError 404 none "Not Found") none 0
        WeatherService.initialState world0).result
        = Except.error (jsError (msgNotFound "Paris")) ∧
    (∃ a b, msgNotFound "Paris" = a ++ "Paris" ++ b) ∧
    (WeatherService.getWeather "Paris" (some "k")
        (UpstreamOutcome.httpError 401 none "Not Found") none 0
        WeatherService.initialState world0).result
        = Except.error (jsError msgAuth) ∧
    (WeatherService.getWeather "Paris" (some "k")
        UpstreamOutcome.networkError none 0
        WeatherService.initialState world0).result
        = Except.error (jsError msgUnreachable) ∧
    (jsError (msgNotFound "Paris")).name = (jsError msgAuth).name ∧
    (jsError msgAuth).name = (jsError msgUnreachable).name ∧
    msgNotFound "Paris" ≠ msgAuth ∧
    msgNotFound "Paris" ≠ msgUnreachable ∧
    msgAuth ≠ msgUnreachable :=
  getWeather_errorTaxonomy "Paris" "k" none "Not Found" none 0
    WeatherService.initialState world0 (by decide)

/-- C2 counterexample: the claim that the 404, 401 and network failures
are distinguishable by error kind (distinct error types) is false — at
concrete inputs all three outcomes carry the same runtime error class
name "Error". -/
theorem getWeather_errorKinds_counterexample :
    exceptErrName (WeatherService.getWeather "Paris" (some "k")
        (UpstreamOutcome.httpError 404 none "Not Found") none 0
        WeatherService.initialState world0).result = some "Error" ∧
    exceptErrName (WeatherService.getWeather "Paris" (some "k")
        (UpstreamOutcome.httpError 401 none "Unauthorized") none 0
        WeatherService.initialState world0).result = some "Error" ∧
    exceptErrName (WeatherService.getWeather "Paris" (some "k")
        UpstreamOutcome.networkError none 0
        WeatherService.initialState world0).result = some "Error" :=
  ⟨rfl, rfl, rfl⟩

/-- C3: if the Gateway fetch succeeds (a 2xx body with a weather entry)
but the Store write fails, `getWeather` fails with an Error carrying the
underlying storage message (wrapped as "Weather service error: <msg>") and
the stores are unchanged; moreover every success outcome implies the save
did not fail and the returned record was persisted — there is no
fetched-but-not-persisted success. -/
theorem getWeather_storeFailure (city apiKeyVal : String) (data : OpenWeatherApiResponse)
    (entry : OWWeatherItem) (rest : List OWWeatherItem) (m : String) (now : Nat)
    (svc : ServiceState) (w : World)
    (h : jsTrim city ≠ "") (hw : data.weather = entry :: rest) :
    (WeatherService.getWeather city (some apiKeyVal) (UpstreamOutcome.ok data)
        (some m) now svc w).result = Except.error (jsError (msgServiceError m)) ∧
    (WeatherService.getWeather city (some apiKeyVal) (UpstreamOutcome.ok data)
        (some m) now svc w).world = w ∧
    (∀ (apiKey : Option String) (upstream : UpstreamOutcome) (saveFail : Option String)
        (dto : WeatherDTO),
      (WeatherService.getWeather city apiKey upstream saveFail now svc w).result
          = Except.ok dto →
      saveFail = none ∧
      (WeatherService.getWeather city apiKey upstream saveFail now svc w).world
          = WeatherService.saveWeatherLog svc w dto) := by
  refine ⟨by simp [WeatherService.getWeather, h, hw], by simp [WeatherService.getWeather, h, hw], ?_⟩
  intro apiKey upstream saveFail dto hok
  match apiKey with
  | none => simp [WeatherService.getWeather, h] at hok
  | some k =>
    match upstream with
    | UpstreamOutcome.ok data2 =>
      match hwe : data2.weather with
      | [] => simp [WeatherService.getWeather, h, hwe] at hok
      | entry2 :: rest2 =>
        match saveFail with
        | some m2 => simp [WeatherService.getWeather, h, hwe] at hok
        | none =>
          have hdto : WeatherService.buildDTO data2 entry2 now = dto := by
            simpa [WeatherService.getWeather, h, hwe] using hok
          subst hdto
          exact ⟨rfl, by simp [WeatherService.getWeather, h, hwe]⟩
    | UpstreamOutcome.httpError status dataMsg statusText =>
      by_cases h404 : status = 404
      · simp [WeatherService.getWeather, h, h404] at hok
      · by_cases h401 : status = 401
        · simp [WeatherService.getWeather, h, h404, h401] at hok
        · simp [WeatherService.getWeather, h, h404, h401] at hok
    | UpstreamOutcome.networkError => simp [WeatherService.getWeather, h] at hok
    | UpstreamOutcome.setupError m2 => simp [WeatherService.getWeather, h] at hok

/-- C3 witness: the store-failure theorem at a concrete Paris response
and a concrete storage error message. -/
theorem getWeather_storeFailure_witness :
    (WeatherService.getWeather "Paris" (some "k") (UpstreamOutcome.ok sampleResp)
        (some "SQLITE_IOERR: disk I/O error") 0 WeatherService.initialState world0).result
        = Except.error (jsError (msgServiceError "SQLITE_IOERR: disk I/O error")) ∧
    (WeatherService.getWeather "Paris" (some "k") (UpstreamOutcome.ok sampleResp)
        (some "SQLITE_IOERR: disk I/O error") 0 WeatherService.initialState world0).world
        = world0 ∧
    (∀ (apiKey : Option String) (upstream : UpstreamOutcome) (saveFail : Option String)
        (dto : WeatherDTO),
      (WeatherService.getWeather "Paris" apiKey upstream saveFail 0
          WeatherService.initialState world0).result = Except.ok dto →
      saveFail = none ∧
      (WeatherService.getWeather "Paris" apiKey upstream saveFail 0
          WeatherService.initialState world0).world
          = WeatherService.saveWeatherLog WeatherService.initialState world0 dto) :=
  getWeather_storeFailure "Paris" "k" sampleResp sampleEntry []
    "SQLITE_IOERR: disk I/O error" 0 WeatherService.initialState world0 (by decide) rfl

/-- C5: on a successful call, the returned Weather Record is built from
the upstream JSON as name → city, main.temp → temperature,
weather[0].description → description, main.humidity → humidity,
wind.speed → windSpeed, and timestamp is the call time `now`; the result
is unchanged under any value of the provider observation time `dt`. -/
theorem getWeather_mapping (city apiKeyVal : String) (data : OpenWeatherApiResponse)
    (entry : OWWeatherItem) (rest : List OWWeatherItem) (now : Nat)
    (svc : ServiceState) (w : World)
    (h : jsTrim city ≠ "") (hw : data.weather = entry :: rest) :
    (WeatherService.getWeather city (some apiKeyVal) (UpstreamOutcome.ok data)
        none now svc w).result
      = Except.ok { id := none, city := data.name, temperature := data.main.temp,
                    description := entry.description, humidity := some data.main.humidity,
                    windSpeed := some data.wind.speed, windDirection := none,
                    pressure := none, timestamp := now } ∧
    ∀ d : Rat,
      (WeatherService.getWeather city (some apiKeyVal)
          (UpstreamOutcome.ok { data with dt := d }) none now svc w).result
        = (WeatherService.getWeather city (some apiKeyVal) (UpstreamOutcome.ok data)
            none now svc w).result := by
  cases data
  constructor
  · simp_all [WeatherService.getWeather, WeatherService.buildDTO]
  · intro d
    simp_all [WeatherService.getWeather, WeatherService.buildDTO]

/-- C5 witness: the mapping theorem at a concrete Paris response. -/
theorem getWeather_mapping_witness :
    (WeatherService.getWeather "Paris" (some "k") (UpstreamOutcome.ok sampleResp)
        none 0 WeatherService.initialState world0).result
      = Except.ok { id := none, city := sampleResp.name, temperature := sampleResp.main.temp,
                    description := sampleEntry.description,
                    humidity := some sampleResp.main.humidity,
                    windSpeed := some sampleResp.wind.speed, windDirection := none,
                    pressure := none, timestamp := 0 } ∧
    ∀ d : Rat,
      (WeatherService.getWeather "Paris" (some "k")
          (UpstreamOutcome.ok { sampleResp with dt := d }) none 0
          WeatherService.initialState world0).result
        = (WeatherService.getWeather "Paris" (some "k") (UpstreamOutcome.ok sampleResp)
            none 0 WeatherService.initialState world0).result :=
  getWeather_mapping "Paris" "k" sampleResp sampleEntry [] 0
    WeatherService.initialState world0 (by decide) rfl

/-- C6: `getWeatherHistory` returns only records whose city field exactly
equals the argument, ordered by timestamp descending, with at most `limit`
entries; the returned records are the `limit` most recent among the exact
matches (every omitted match is no newer than every returned one); an
omitted limit defaults to 10; and when no records match the result is the
empty list (the function is total, it never fails). -/
theorem getWeatherHistory_spec (svc : ServiceState) (w : World) (city : String) (limit : Nat) :
    (∀ d ∈ WeatherService.getWeatherHistory svc w city limit, d.city = city) ∧
    List.Sorted (fun a b : WeatherDTO => b.timestamp ≤ a.timestamp)
      (WeatherService.getWeatherHistory svc w city limit) ∧
    (WeatherService.getWeatherHistory svc w city limit).length ≤ limit ∧
    (∃ sel rest, WeatherService.getWeatherHistory svc w city limit
        = sel.map WeatherLog.toHistoryDTO ∧
      List.Perm (sel ++ rest) ((w.get svc.dataSource).rows.filter fun r => r.city == city) ∧
      ∀ a ∈ sel, ∀ b ∈ rest, b.timestamp ≤ a.timestamp) ∧
    (((w.get svc.dataSource).rows.filter fun r => r.city == city) = [] →
      WeatherService.getWeatherHistory svc w city limit = []) ∧
    WeatherService.getWeatherHistory svc w city = WeatherService.getWeatherHistory svc w city 10 := by
  have hS : List.Sorted tsDesc
      (List.insertionSort tsDesc ((w.get svc.dataSource).rows.filter fun r => r.city == city)) :=
    List.sorted_insertionSort tsDesc _
  refine ⟨?_, ?_, ?_, ?_, ?_, rfl⟩
  · intro d hd
    rcases List.mem_map.mp hd with ⟨log, hlog, rfl⟩
    have h1 : log ∈ List.insertionSort tsDesc
        ((w.get svc.dataSource).rows.filter fun r => r.city == city) :=
      List.take_subset _ _ hlog
    have h2 := (List.mem_filter.mp ((List.mem_insertionSort tsDesc).mp h1)).2
    simpa [WeatherLog.toHistoryDTO] using eq_of_beq h2
  · have htake : List.Pairwise tsDesc
        ((List.insertionSort tsDesc
          ((w.get svc.dataSource).rows.filter fun r => r.city == city)).take limit) :=
      List.Pairwise.sublist (List.take_sublist _ _) hS
    exact (List.pairwise_map).mpr (htake.imp fun h => h)
  · calc (WeatherService.getWeatherHistory svc w city limit).length
        = ((List.insertionSort tsDesc
            ((w.get svc.dataSource).rows.filter fun r => r.city == city)).take limit).length := by
          simp [WeatherService.getWeatherHistory, Store.findByCity]
      _ ≤ limit := (List.length_take _ _).trans_le (min_le_left _ _)
  · refine ⟨(List.insertionSort tsDesc
        ((w.get svc.dataSource).rows.filter fun r => r.city == city)).take limit,
      (List.insertionSort tsDesc
        ((w.get svc.dataSource).rows.filter fun r => r.city == city)).drop limit,
      rfl, ?_, ?_⟩
    · rw [List.take_append_drop]
      exact List.perm_insertionSort tsDesc _
    · have hp : List.Pairwise tsDesc
          ((List.insertionSort tsDesc
            ((w.get svc.dataSource).rows.filter fun r => r.city == city)).take limit ++
           (List.insertionSort tsDesc
            ((w.get svc.dataSource).rows.filter fun r => r.city == city)).drop limit) := by
        rw [List.take_append_drop]; exact hS
      exact (List.pairwise_append.mp hp).2.2
  · intro h0
    simp [WeatherService.getWeatherHistory, Store.findByCity, h0]

/-- C7 (amended): for every non-empty city, whenever `getWeather` returns
a record, that record is exactly the one mapped from the upstream 2xx body,
and it is complete whenever the provider-returned name and
weather[0].description are non-empty. (The code does not validate the
upstream payload, so a degenerate upstream response yields a successful but
incomplete record — see the counterexample.) -/
theorem getWeather_complete (city : String) (apiKey : Option String)
    (upstream : UpstreamOutcome) (saveFail : Option String) (now : Nat)
    (svc : ServiceState) (w : World) (dto : WeatherDTO)
    (h : jsTrim city ≠ "")
    (hok : (WeatherService.getWeather city apiKey upstream saveFail now svc w).result
        = Except.ok dto) :
    ∃ data entry rest, upstream = UpstreamOutcome.ok data ∧
      data.weather = entry :: rest ∧
      dto = WeatherService.buildDTO data entry now ∧
      (data.name ≠ "" → entry.description ≠ "" → dto.isComplete = true) := by
  match apiKey with
  | none => simp [WeatherService.getWeather, h] at hok
  | some k =>
    match upstream with
    | UpstreamOutcome.ok data =>
      match hwe : data.weather with
      | [] => simp [WeatherService.getWeather, h, hwe] at hok
      | entry :: rest =>
        match saveFail with
        | some m => simp [WeatherService.getWeather, h, hwe] at hok
        | none =>
          have hdto : WeatherService.buildDTO data entry now = dto := by
            simpa [WeatherService.getWeather, h, hwe] using hok
          refine ⟨data, entry, rest, rfl, hwe, hdto.symm, ?_⟩
          intro h1 h2
          subst hdto
          simp [WeatherDTO.isComplete, WeatherService.buildDTO, h1, h2]
    | UpstreamOutcome.httpError status dataMsg statusText =>
      by_cases h404 : status = 404
      · simp [WeatherService.getWeather, h, h404] at hok
      · by_cases h401 : status = 401
        · simp [WeatherService.getWeather, h, h404, h401] at hok
        · simp [WeatherService.getWeather, h, h404, h401] at hok
    | UpstreamOutcome.networkError => simp [WeatherService.getWeather, h] at hok
    | UpstreamOutcome.setupError m => simp [WeatherService.getWeather, h] at hok

/-- C7 witness: the amended theorem applied at a well-formed upstream
response for Paris. -/
theorem getWeather_complete_witness :
    ∃ data entry rest, UpstreamOutcome.ok sampleResp = UpstreamOutcome.ok data ∧
      data.weather = entry :: rest ∧
      sampleDTO = WeatherService.buildDTO data entry 0 ∧
      (data.name ≠ "" → entry.description ≠ "" → sampleDTO.isComplete = true) :=
  getWeather_complete "Paris" (some "k") (UpstreamOutcome.ok sampleResp) none 0
    WeatherService.initialState world0 sampleDTO (by decide) rfl

/-- C7 counterexample: with an upstream 2xx response whose
weather[0].description is the empty string, `getWeather "Paris"` returns a
record (it does not raise) and that record is not complete — refuting the
claim that every return is a complete Weather Record. -/
theorem getWeather_complete_counterexample :
    (WeatherService.getWeather "Paris" (some "k") (UpstreamOutcome.ok degenerateResp)
        none 0 WeatherService.initialState world0).result = Except.ok incompleteDTO ∧
    incompleteDTO.isComplete = false :=
  ⟨rfl, rfl⟩

/-- C8: with the service in its default configuration (`dataSource`
pointing at the global `AppDataSource`), `deleteWeatherHistory` returns
exactly the number of records whose city exactly matches (a natural
number, never negative, 0 when none match), removes exactly those records,
leaves `getWeatherHistory` for that city empty afterwards, and a second
call returns 0. -/
theorem deleteWeatherHistory_spec (svc : ServiceState) (w : World) (city : String)
    (limit : Nat) (h : svc.dataSource = DSRef.app) :
    (WeatherService.deleteWeatherHistory svc city w).1
        = ((w.get DSRef.app).rows.filter fun r => r.city == city).length ∧
    ((WeatherService.deleteWeatherHistory svc city w).2.get DSRef.app).rows
        = (w.get DSRef.app).rows.filter (fun r => r.city != city) ∧
    WeatherService.getWeatherHistory svc
        (WeatherService.deleteWeatherHistory svc city w).2 city limit = [] ∧
    (WeatherService.deleteWeatherHistory svc city
        (WeatherService.deleteWeatherHistory svc city w).2).1 = 0 := by
  have hempty : ((w.get DSRef.app).rows.filter (fun r => r.city != city)).filter
      (fun r => r.city == city) = [] := by
    rw [List.filter_eq_nil_iff]
    intro a ha hbeq
    have h1 := (List.mem_filter.mp ha).2
    rw [bne_iff_ne] at h1
    exact h1 (eq_of_beq hbeq)
  refine ⟨rfl, ?_, ?_, ?_⟩
  · rw [show (WeatherService.deleteWeatherHistory svc city w).2
        = w.set DSRef.app ((w.get DSRef.app).deleteByCity city).2 from rfl,
      World.get_set_self]
    rfl
  · show ((((WeatherService.deleteWeatherHistory svc city w).2.get svc.dataSource).findByCity
        city limit).map WeatherLog.toHistoryDTO) = []
    rw [h, show (WeatherService.deleteWeatherHistory svc city w).2
        = w.set DSRef.app ((w.get DSRef.app).deleteByCity city).2 from rfl,
      World.get_set_self]
    show ((List.insertionSort tsDesc ((((w.get DSRef.app).deleteByCity city).2.rows).filter
        fun r => r.city == city)).take limit).map WeatherLog.toHistoryDTO = []
    rw [show (((w.get DSRef.app).deleteByCity city).2).rows
        = (w.get DSRef.app).rows.filter (fun r => r.city != city) from rfl, hempty]
    simp
  · show jsOrZero (some ((((WeatherService.deleteWeatherHistory svc city w).2.get
        DSRef.app).rows.filter fun r => r.city == city).length)) = 0
    rw [show (WeatherService.deleteWeatherHistory svc city w).2
        = w.set DSRef.app ((w.get DSRef.app).deleteByCity city).2 from rfl,
      World.get_set_self]
    rw [show (((w.get DSRef.app).deleteByCity city).2).rows
        = (w.get DSRef.app).rows.filter (fun r => r.city != city) from rfl, hempty]
    rfl

/-- C8 witness: the delete theorem on a global store holding five Paris
records: the first call returns 5, the history is empty afterwards, and a
second call returns 0. -/
theorem deleteWeatherHistory_spec_witness :
    (WeatherService.deleteWeatherHistory WeatherService.initialState "Paris" fiveParisWorld).1
        = 5 ∧
    WeatherService.getWeatherHistory WeatherService.initialState
        (WeatherService.deleteWeatherHistory WeatherService.initialState "Paris"
          fiveParisWorld).2 "Paris" 10 = [] ∧
    (WeatherService.deleteWeatherHistory WeatherService.initialState "Paris"
        (WeatherService.deleteWeatherHistory WeatherService.initialState "Paris"
          fiveParisWorld).2).1 = 0 := by
  have h := deleteWeatherHistory_spec WeatherService.initialState fiveParisWorld "Paris" 10 rfl
  exact ⟨h.1.trans (by decide), h.2.2.1, h.2.2.2⟩

/-- C9: the Response Envelope distinguishes success from error strictly
by the stored `success` flag: the constructor stores the flag independently
of the `data` value (which may be absent or any value, including falsy
encodings), the success factory produces `success = true` with the data and
the call-time timestamp, and the error factory produces `success = false`
with no data and an optional error string. -/
theorem apiResponse_envelope (T : Type) (b : Bool) (msg : String) (d : Option T)
    (e : Option String) (ts : String) (x : T) :
    (ApiResponse.make T b msg d e ts).success = b ∧
    (ApiResponse.make T b msg d e ts).data = d ∧
    (ApiResponse.make T b msg d e ts).error = e ∧
    (ApiResponse.make T b msg d e ts).timestamp = ts ∧
    (ApiResponse.mkSuccess T x ts).success = true ∧
    (ApiResponse.mkSuccess T x ts).data = some x ∧
    (ApiResponse.mkSuccess T x ts).message = "Operation successful" ∧
    (ApiResponse.mkSuccess T x ts).timestamp = ts ∧
    (ApiResponse.mkError T msg e ts).success = false ∧
    (ApiResponse.mkError T msg e ts).data = none ∧
    (ApiResponse.mkError T msg e ts).error = e ∧
    (ApiResponse.mkError T msg e ts).message = msg :=
  ⟨rfl, rfl, rfl, rfl, rfl, rfl, rfl, rfl, rfl, rfl, rfl, rfl⟩

/-- C10: `deleteWeatherHistory` always operates on the global
`AppDataSource` store, ignoring any injected data source: after
`setDataSource(test)`, a delete leaves the injected test store unchanged
(so history reads through the injected source see the same records as
before), while it filters the global store's rows; and the delete result
is the same no matter which data source the service state holds. -/
theorem deleteWeatherHistory_usesGlobal (s : ServiceState) (w : World) (city : String)
    (limit : Nat) :
    (WeatherService.deleteWeatherHistory (WeatherService.setDataSource s DSRef.test)
        city w).2.testStore = w.testStore ∧
    (WeatherService.deleteWeatherHistory (WeatherService.setDataSource s DSRef.test)
        city w).2.appStore.rows = w.appStore.rows.filter (fun r => r.city != city) ∧
    WeatherService.getWeatherHistory (WeatherService.setDataSource s DSRef.test)
        (WeatherService.deleteWeatherHistory (WeatherService.setDataSource s DSRef.test)
          city w).2 city limit
      = WeatherService.getWeatherHistory (WeatherService.setDataSource s DSRef.test)
          w city limit ∧
    ∀ svc2 : ServiceState, WeatherService.deleteWeatherHistory svc2 city w
        = WeatherService.deleteWeatherHistory (WeatherService.setDataSource s DSRef.test)
            city w :=
  ⟨rfl, rfl, rfl, fun _ => rfl⟩
